import Mathlib

/-!
Verification development for the ncp profile-builder scripts.

Each Python script is shallowly embedded as pure Lean functions over explicit
state: CSV rows become a `Row` structure, Python dicts become association
lists (`List (String × _)`) with lookup/assignment functions mirroring dict
semantics, fallible steps (a `parts[0]` that can raise `IndexError`, an
unguarded `open`) become `Except`, and the two loads whose failures the
live-ecosystem script catches become `Except` parameters of the run function.
-/

set_option maxHeartbeats 1000000

/-- Python `str.isspace` / `str.split()` whitespace set (ASCII part used here):
space, tab, newline, carriage return, vertical tab, form feed. -/
def pyIsSpace (c : Char) : Bool :=
  c = ' ' || c = '\t' || c = '\n' || c = '\r' || c = '\x0b' || c = '\x0c'

/-- Accumulating tokenizer behind `pySplit`: `acc` holds the current token
(reversed). Runs of whitespace separate tokens; empty tokens are dropped,
exactly as Python's no-argument `str.split()` does. -/
def tokensAux : List Char → List Char → List (List Char)
  | [], acc => if acc.isEmpty then [] else [acc.reverse]
  | c :: cs, acc =>
    if pyIsSpace c then
      if acc.isEmpty then tokensAux cs [] else acc.reverse :: tokensAux cs []
    else tokensAux cs (c :: acc)

/-- Python `command.split()`: split on runs of whitespace, no empty tokens. -/
def pySplit (s : String) : List String :=
  (tokensAux s.data []).map String.mk

/-- `parts = command.split(); executable = parts[0]; args = parts[1:]`.
`none` models the `IndexError` raised by `parts[0]` on a blank command. -/
def parseCommand (command : String) : Option (String × List String) :=
  match pySplit command with
  | [] => none
  | e :: rest => some (e, rest)

/-- `p` is a prefix of the character list `s`. -/
def charsPrefix : List Char → List Char → Bool
  | [], _ => true
  | _ :: _, [] => false
  | p :: ps, c :: cs => p = c && charsPrefix ps cs

/-- Python `s.startswith(pre)`. -/
def pyStartswith (s pre : String) : Bool :=
  charsPrefix pre.data s.data

/-- Python `s.strip()`: drop leading and trailing whitespace. -/
def pyStrip (s : String) : String :=
  String.mk (((s.data.dropWhile pyIsSpace).reverse.dropWhile pyIsSpace).reverse)

/-- The segment of `cs` strictly between the first and second `'→'`
(to the end if there is no second one): exactly Python's
`line.split('→')[1]` when `'→' in line`. -/
def segmentAfterArrow (cs : List Char) : List Char :=
  ((cs.dropWhile (fun c => c ≠ '→')).drop 1).takeWhile (fun c => c ≠ '→')

/-- Line handling of the curated-names loop in build-live-ecosystem.py:
strip the line, skip it when empty, and when it contains `'→'` take the
arrow-delimited second field (stripped) as the MCP name. -/
def extractName (line : String) : Option String :=
  let l := pyStrip line
  if l.data.isEmpty then none
  else if l.data.contains '→' then some (pyStrip (String.mk (segmentAfterArrow l.data)))
  else some l

/-- One CSV row as produced by `csv.DictReader`. The three columns every
script reads are mandatory; the columns only `row.get` reaches are optional
(`none` models an absent column). -/
structure Row where
  mcp_name : String
  command : String
  status : String
  description : Option String := none
  category : Option String := none
  downloads : Option String := none
  repository_url : Option String := none
deriving DecidableEq, Repr

/-- The nested `"metadata"` object stored per server entry. -/
structure ServerMeta where
  type : String
  source : String
  verified : Bool
  originalName : Option String := none
  tested_date : Option String := none
deriving DecidableEq, Repr

/-- One value of the `mcpServers` mapping. Fields that a given script does
not write are `none` (the key is absent from the Python dict). -/
structure ServerEntry where
  command : String
  args : List String
  description : Option String := none
  category : Option String := none
  downloads : Option String := none
  repository_url : Option String := none
  package_name : Option String := none
  version : Option String := none
  metadata : Option ServerMeta := none
deriving DecidableEq, Repr

/-- The `mcpServers` dict: an association list with distinct keys kept in
insertion order, exactly the observable behaviour of a Python dict. -/
abbrev SrvMap := List (String × ServerEntry)

/-- Python `d[n]` as an `Option` (also backs `n in d`). -/
def getVal {α : Type} : List (String × α) → String → Option α
  | [], _ => none
  | (k, v) :: rest, n => if k = n then some v else getVal rest n

/-- Python `n in d`. -/
def hasKey {α : Type} (m : List (String × α)) (n : String) : Bool :=
  (getVal m n).isSome

/-- Python `d[n] = v`: overwrite in place if the key exists, else append. -/
def setVal {α : Type} : List (String × α) → String → α → List (String × α)
  | [], n, v => [(n, v)]
  | (k, w) :: rest, n, v =>
    if k = n then (k, v) :: rest else (k, w) :: setVal rest n v

/-- Python `set.add` on a set modelled as a duplicate-free list. -/
def setAdd (s : List String) (x : String) : List String :=
  if x ∈ s then s else s ++ [x]

/-- Spec-side helper: `sorted(set(l))` — the sorted de-duplicated list. -/
def sortedDedup (l : List String) : List String :=
  List.insertionSort (· ≤ ·) l.dedup

/-! ## build-profile.py

Reads an existing profile and a CSV, filters rows with `status == 'active'`,
and for each: parses the command (before the duplicate check!), skips the
row if its name is already a key, else inserts a bare command/args entry. -/

/-- The merge loop of build-profile.py over the already-filtered
`active_mcps`. `Except.error` models the uncaught `IndexError` from
`parts[0]` on a blank command, which aborts the whole script. -/
def addLoop : SrvMap → List Row → Except String SrvMap
  | m, [] => .ok m
  | m, r :: rs =>
    match parseCommand r.command with
    | none => .error "IndexError: list index out of range"
    | some pa =>
      if hasKey m r.mcp_name then addLoop m rs
      else addLoop (setVal m r.mcp_name { command := pa.1, args := pa.2 }) rs

/-- build-profile.py from the point both inputs are in memory: filter the CSV
rows to `status == 'active'` and run the merge loop on the loaded profile. -/
def buildProfileMerge (m0 : SrvMap) (rows : List Row) : Except String SrvMap :=
  addLoop m0 (rows.filter (fun r => r.status = "active"))

/-- The whole build-profile.py run. Both `open` calls are unguarded, so a
failed load (`Except.error`) propagates: nothing further runs and no profile
is written. An `ok` result is the final `mcpServers` mapping that the script
serializes. -/
def buildProfileRun (profileLoad : Except String SrvMap)
    (csvLoad : Except String (List Row)) : Except String SrvMap :=
  match profileLoad with
  | .error e => .error e
  | .ok m0 =>
    match csvLoad with
    | .error e => .error e
    | .ok rows => buildProfileMerge m0 rows

/-! ## build-top-profile.py

Fresh profile, rows filtered to `status == 'production'`; rows whose command
starts with `docker` or `wrangler` are skipped, the rest are parsed and
inserted unconditionally (no duplicate check). -/

/-- `command.startswith('docker') or command.startswith('wrangler')`. -/
def dockerSkip (command : String) : Bool :=
  pyStartswith command "docker" || pyStartswith command "wrangler"

/-- The insert loop of build-top-profile.py over the filtered
`production_mcps`. A blank command that survives the docker/wrangler test
raises an uncaught `IndexError` (`Except.error`). -/
def topLoop : SrvMap → List Row → Except String SrvMap
  | m, [] => .ok m
  | m, r :: rs =>
    if dockerSkip r.command then topLoop m rs
    else
      match parseCommand r.command with
      | none => .error "IndexError: list index out of range"
      | some pa => topLoop (setVal m r.mcp_name { command := pa.1, args := pa.2 }) rs

/-- build-top-profile.py: the `mcpServers` mapping built from the CSV rows
(the profile starts with an empty mapping). -/
def buildTopServers (rows : List Row) : Except String SrvMap :=
  topLoop [] (rows.filter (fun r => r.status = "production"))

/-- The last element of `l` satisfying `p`, used to state the
last-writer-wins behaviour of the unconditional inserts. -/
def lastMatch (p : Row → Bool) : List Row → Option Row
  | [] => none
  | r :: rs =>
    match lastMatch p rs with
    | some x => some x
    | none => if p r then some r else none

/-! ## build-live-ecosystem.py

Fresh profile; first a production merge from the top-mcp-servers CSV
(inline status filter, docker/wrangler skip, rich entries, whole block in a
`try/except`), then a curated-names merge resolving names through the
static `real_mcp_mappings` table (also in a `try/except`); finally metadata
is stamped and the profile written. -/

/-- The literal `real_mcp_mappings` table of build-live-ecosystem.py. -/
def real_mcp_mappings : List (String × String) := [
  ("filesystem-mcp", "@modelcontextprotocol/server-filesystem"),
  ("memory-mcp", "@modelcontextprotocol/server-memory"),
  ("brave-search-mcp", "@modelcontextprotocol/server-brave-search"),
  ("slack-mcp", "@modelcontextprotocol/server-slack"),
  ("puppeteer-mcp", "@modelcontextprotocol/server-puppeteer"),
  ("postgres-mcp", "@modelcontextprotocol/server-postgres"),
  ("sqlite-mcp", "@modelcontextprotocol/server-sqlite"),
  ("git-mcp", "@modelcontextprotocol/server-git"),
  ("everything-mcp", "@modelcontextprotocol/server-everything"),
  ("fetch-mcp", "@modelcontextprotocol/server-fetch"),
  ("inspector-mcp", "@modelcontextprotocol/inspector"),
  ("sequential-thinking-mcp", "@modelcontextprotocol/server-sequential-thinking"),
  ("azure-mcp", "@azure/azure-mcp"),
  ("playwright-mcp", "@microsoft/mcp-playwright"),
  ("markitdown-mcp", "@microsoft/mcp-markitdown"),
  ("docker-mcp", "@docker/mcp-server"),
  ("supabase-mcp", "@supabase/mcp-server-supabase"),
  ("browserbase-mcp", "@browserbase/mcp-server-browserbase"),
  ("elevenlabs-mcp", "@elevenlabs/elevenlabs-mcp"),
  ("sanity-mcp", "@sanity-io/sanity-mcp-server"),
  ("dataforseo-mcp", "@dataforseo/mcp-server-typescript"),
  ("chroma-mcp", "@chroma-core/chroma-mcp"),
  ("apidog-mcp", "@apidog/mcp-server"),
  ("github-mcp", "github-mcp-server"),
  ("aws-mcp", "@aws/aws-mcp"),
  ("gcp-mcp", "@google-cloud/mcp-server"),
  ("aws-bedrock-mcp", "@aws/bedrock-mcp-server"),
  ("digitalocean-mcp", "@digitalocean/mcp-server"),
  ("kubernetes-mcp", "@kubernetes/mcp-server"),
  ("terraform-mcp", "@hashicorp/terraform-mcp-server"),
  ("helm-mcp", "@helm/mcp-server"),
  ("nomad-mcp", "@hashicorp/nomad-mcp-server"),
  ("consul-mcp", "@hashicorp/consul-mcp-server"),
  ("vault-mcp", "@hashicorp/vault-mcp-server"),
  ("pulumi-mcp", "@pulumi/mcp-server"),
  ("mongodb-mcp", "@mongodb/mcp-server"),
  ("redis-mcp", "@redis/mcp-server"),
  ("elasticsearch-mcp", "@elastic/mcp-server"),
  ("cassandra-mcp", "@cassandra/mcp-server"),
  ("dynamodb-mcp", "@aws/dynamodb-mcp-server"),
  ("couchdb-mcp", "@couchdb/mcp-server"),
  ("influxdb-mcp", "@influxdata/mcp-server"),
  ("neo4j-mcp", "@neo4j/mcp-server"),
  ("mysql-mcp", "@mysql/mcp-server"),
  ("mariadb-mcp", "@mariadb/mcp-server"),
  ("solr-mcp", "@apache/solr-mcp-server"),
  ("discord-mcp", "@discord/mcp-server"),
  ("telegram-mcp", "@telegram/mcp-server"),
  ("teams-mcp", "@microsoft/teams-mcp-server"),
  ("webex-mcp", "@cisco/webex-mcp-server"),
  ("zoom-mcp", "@zoom/mcp-server"),
  ("whatsapp-mcp", "@whatsapp/mcp-server"),
  ("twitter-mcp", "@twitter/mcp-server"),
  ("linkedin-mcp", "@linkedin/mcp-server"),
  ("facebook-mcp", "@facebook/mcp-server"),
  ("instagram-mcp", "@instagram/mcp-server"),
  ("pinterest-mcp", "@pinterest/mcp-server"),
  ("reddit-mcp", "@reddit/mcp-server"),
  ("medium-mcp", "@medium/mcp-server"),
  ("youtube-mcp", "@youtube/mcp-server"),
  ("tiktok-mcp", "@tiktok/mcp-server"),
  ("openai-mcp", "@openai/mcp-server"),
  ("huggingface-mcp", "@huggingface/mcp-server"),
  ("langchain-mcp", "@langchain/mcp-server"),
  ("cohere-mcp", "@cohere/mcp-server"),
  ("anthropic-mcp", "@anthropic/mcp-server"),
  ("google-ai-mcp", "@google/ai-mcp-server"),
  ("pytorch-mcp", "@pytorch/mcp-server"),
  ("tensorflow-mcp", "@tensorflow/mcp-server"),
  ("mlflow-mcp", "@mlflow/mcp-server"),
  ("wandb-mcp", "@wandb/mcp-server"),
  ("kubeflow-mcp", "@kubeflow/mcp-server"),
  ("jira-mcp", "@atlassian/jira-mcp-server"),
  ("gitlab-mcp", "@gitlab/mcp-server"),
  ("bitbucket-mcp", "@atlassian/bitbucket-mcp-server"),
  ("linear-mcp", "@linear/mcp-server"),
  ("asana-mcp", "@asana/mcp-server"),
  ("trello-mcp", "@trello/mcp-server"),
  ("monday-mcp", "@monday/mcp-server"),
  ("clickup-mcp", "@clickup/mcp-server"),
  ("notion-mcp", "@notion/mcp-server"),
  ("contentful-mcp", "@contentful/mcp-server"),
  ("wordpress-mcp", "@wordpress/mcp-server"),
  ("drupal-mcp", "@drupal/mcp-server"),
  ("joomla-mcp", "@joomla/mcp-server"),
  ("ghost-mcp", "@ghost/mcp-server"),
  ("strapi-mcp", "@strapi/mcp-server"),
  ("woocommerce-mcp", "@woocommerce/mcp-server"),
  ("magento-mcp", "@magento/mcp-server"),
  ("shopify-mcp", "@shopify/mcp-server"),
  ("bing-search-mcp", "@microsoft/bing-search-mcp-server"),
  ("google-search-mcp", "@google/search-mcp-server"),
  ("duckduckgo-mcp", "@duckduckgo/mcp-server"),
  ("sphinx-search-mcp", "@sphinx/search-mcp-server"),
  ("grafana-mcp", "@grafana/mcp-server"),
  ("datadog-mcp", "@datadog/mcp-server"),
  ("newrelic-mcp", "@newrelic/mcp-server"),
  ("sentry-mcp", "@sentry/mcp-server"),
  ("prometheus-mcp", "@prometheus/mcp-server"),
  ("splunk-mcp", "@splunk/mcp-server"),
  ("logzio-mcp", "@logz/mcp-server"),
  ("stripe-mcp", "@stripe/mcp-server"),
  ("paypal-mcp", "@paypal/mcp-server"),
  ("square-mcp", "@square/mcp-server"),
  ("email-mcp", "@email/mcp-server"),
  ("sendgrid-mcp", "@sendgrid/mcp-server"),
  ("mailchimp-mcp", "@mailchimp/mcp-server"),
  ("twilio-mcp", "@twilio/mcp-server"),
  ("figma-mcp", "@figma/mcp-server"),
  ("miro-mcp", "@miro/mcp-server"),
  ("invision-mcp", "@invision/mcp-server"),
  ("shell-mcp", "@shell/mcp-server"),
  ("ssh-mcp", "@ssh/mcp-server"),
  ("ftp-mcp", "@ftp/mcp-server"),
  ("rsync-mcp", "@rsync/mcp-server"),
  ("tar-mcp", "@tar/mcp-server"),
  ("zip-mcp", "@zip/mcp-server"),
  ("systemd-mcp", "@systemd/mcp-server"),
  ("nginx-mcp", "@nginx/mcp-server"),
  ("cron-mcp", "@cron/mcp-server"),
  ("logs-mcp", "@logs/mcp-server"),
  ("1password-mcp", "@1password/mcp-server"),
  ("bitwarden-mcp", "@bitwarden/mcp-server"),
  ("lastpass-mcp", "@lastpass/mcp-server"),
  ("auth0-mcp", "@auth0/mcp-server"),
  ("okta-mcp", "@okta/mcp-server"),
  ("cyberark-mcp", "@cyberark/mcp-server"),
  ("django-mcp", "@django/mcp-server"),
  ("flask-mcp", "@flask/mcp-server"),
  ("express-mcp", "@express/mcp-server"),
  ("fastapi-mcp", "@fastapi/mcp-server"),
  ("graphql-mcp", "@graphql/mcp-server"),
  ("grpc-mcp", "@grpc/mcp-server"),
  ("restapi-mcp", "@restapi/mcp-server"),
  ("http-mcp", "@http/mcp-server"),
  ("websocket-mcp", "@websocket/mcp-server"),
  ("webscraping-mcp", "@webscraping/mcp-server"),
  ("wikipedia-mcp", "@wikipedia/mcp-server"),
  ("context7", "@context7/mcp-server"),
  ("apache-mcp", "@apache/mcp-server"),
  ("algolia-mcp", "@algolia/mcp-server"),
  ("elastic-apm-mcp", "@elastic/apm-mcp-server")]

/-- Python `mcp_name in real_mcp_mappings` / `real_mcp_mappings[mcp_name]`. -/
def lookupMapping (n : String) : Option String :=
  getVal real_mcp_mappings n

/-- The production entry of build-live-ecosystem.py, with the `row.get`
defaults of the source. -/
def prodEntry (r : Row) (exe : String) (args : List String) : ServerEntry :=
  { command := exe
    args := args
    description := some (r.description.getD (r.mcp_name ++ " operations and integrations"))
    category := some (r.category.getD "production")
    downloads := some (r.downloads.getD "unknown")
    repository_url := some (r.repository_url.getD "")
    metadata := some { type := "production", source := "top-mcp-servers", verified := true } }

/-- The production merge loop (inside `try`), threading the map and
`production_count`. A blank non-docker command raises `IndexError` inside
the loop; the surrounding `except` keeps the partial state accumulated so
far, reports, and the run continues — hence this function is total and
returns the partial pair in that case. -/
def prodLoop : SrvMap → Nat → List Row → SrvMap × Nat
  | m, c, [] => (m, c)
  | m, c, r :: rs =>
    if r.status = "production" then
      if dockerSkip r.command then prodLoop m c rs
      else
        match parseCommand r.command with
        | none => (m, c)
        | some pa => prodLoop (setVal m r.mcp_name (prodEntry r pa.1 pa.2)) (c + 1) rs
    else prodLoop m c rs

/-- The curated entry of build-live-ecosystem.py. -/
def curatedEntry (mcp_name package_name cmd : String) (args : List String) : ServerEntry :=
  { command := cmd
    args := args
    description := some ("Real production " ++ mcp_name ++ " server with verified functionality")
    category := some "curated-real"
    package_name := some package_name
    metadata := some { type := "curated-real", source := "ecosystem-mapping",
                       verified := false, originalName := some mcp_name } }

/-- Processing of one extracted curated name: skip if already present, skip
if unmapped, else resolve the launch command from the package identifier
(the `github-mcp-server` identifier is special-cased to a docker run) and
insert. Returns the map and the `curated_count` increment. -/
def curatedAdd (m : SrvMap) (mcp_name : String) : SrvMap × Nat :=
  if hasKey m mcp_name then (m, 0)
  else
    match lookupMapping mcp_name with
    | none => (m, 0)
    | some package_name =>
      let ca :=
        if pyStartswith package_name "@" || pyStartswith package_name "github-" then
          if package_name = "github-mcp-server" then
            ("docker", ["run", "ghcr.io/github/github-mcp-server"])
          else ("npx", [package_name])
        else ("npx", [package_name])
      (setVal m mcp_name (curatedEntry mcp_name package_name ca.1 ca.2), 1)

/-- One line of the curated-names loop. -/
def curatedStep (m : SrvMap) (line : String) : SrvMap × Nat :=
  match extractName line with
  | none => (m, 0)
  | some mcp_name => curatedAdd m mcp_name

/-- The curated-names loop (inside `try`; no statement in it can raise). -/
def curatedLoop : SrvMap → Nat → List String → SrvMap × Nat
  | m, c, [] => (m, c)
  | m, c, line :: rest =>
    let s := curatedStep m line
    curatedLoop s.1 (c + s.2) rest

/-- The top-level `metadata` object of a profile document. Scripts that do
not write a field leave it `none`. -/
structure Meta where
  created : String
  modified : String
  totalServers : Option Nat := none
  productionReady : Option Nat := none
  curatedReal : Option Nat := none
  testedPackages : Option Nat := none
  workingPackages : Option Nat := none
  categories : Option (List String) := none
deriving DecidableEq, Repr

/-- A profile document as serialized by the builder scripts. -/
structure Profile where
  name : String
  description : String
  mcpServers : SrvMap
  metadata : Meta
deriving DecidableEq, Repr

/-- The category-collection loop of build-live-ecosystem.py: fold the
entries into a set, taking `server['category']` when present. -/
def collectCats (m : SrvMap) : List String :=
  m.foldl (fun s kv => match kv.2.category with | some c => setAdd s c | none => s) []

/-- The `category` values present across a mapping's entries, in order. -/
def catsOf (m : SrvMap) : List String :=
  m.filterMap (fun kv => kv.2.category)

/-- The whole build-live-ecosystem.py run. `now` stands for
`datetime.now().isoformat() + 'Z'`; the two loads are given as `Except`
values because each sits under a `try/except` that reports the failure and
lets the run continue with that source contributing nothing. The returned
profile is always finalized and written. -/
def buildLive (now : String) (prodLoad : Except String (List Row))
    (curLoad : Except String (List String)) : Profile :=
  let s1 : SrvMap × Nat :=
    match prodLoad with
    | .error _ => ([], 0)
    | .ok rows => prodLoop [] 0 rows
  let s2 : SrvMap × Nat :=
    match curLoad with
    | .error _ => (s1.1, 0)
    | .ok lines => curatedLoop s1.1 0 lines
  { name := "live-ecosystem"
    description := "Profile: live-ecosystem - Comprehensive stress test with 100+ real production MCP servers from the 2025 ecosystem"
    mcpServers := s2.1
    metadata :=
      { created := now
        modified := now
        totalServers := some s2.1.length
        productionReady := some s1.2
        curatedReal := some s2.2
        categories := some (List.insertionSort (· ≤ ·) (collectCats s2.1)) } }

/-! ## create-working-profile.py

Probes each entry of a fixed `test_packages` list through `npm view`
(external; modelled as an oracle), collects the results whose status is
`'exists'` into `working_packages`, and either builds and writes the
working-ecosystem profile from them or exits with code 1 when none
succeeded. -/

/-- One element of the `test_packages` literal list. -/
structure PkgInfo where
  name : String
  package : String
  args : List String
  category : String
deriving DecidableEq, Repr

/-- The literal `test_packages` list of create-working-profile.py. -/
def test_packages : List PkgInfo := [
  { name := "filesystem", package := "@modelcontextprotocol/server-filesystem", args := ["/tmp"], category := "file-operations" },
  { name := "memory", package := "@modelcontextprotocol/server-memory", args := [], category := "ai-memory" },
  { name := "figma", package := "figma-mcp", args := [], category := "design" },
  { name := "ref-tools", package := "ref-tools-mcp", args := [], category := "development" },
  { name := "browser", package := "@agent-infra/mcp-server-browser", args := [], category := "browser-automation" },
  { name := "context7", package := "@upstash/context7-mcp", args := [], category := "ai-context" },
  { name := "browserbase", package := "@browserbase/mcp-server-browserbase", args := [], category := "browser-automation" },
  { name := "elevenlabs", package := "@elevenlabs/elevenlabs-mcp", args := [], category := "audio-ai" },
  { name := "sanity", package := "@sanity-io/sanity-mcp-server", args := [], category := "content-management" },
  { name := "dataforseo", package := "@dataforseo/mcp-server-typescript", args := [], category := "seo-analytics" },
  { name := "chroma", package := "@chroma-core/chroma-mcp", args := [], category := "vector-database" },
  { name := "azure", package := "@azure/azure-mcp", args := [], category := "cloud-infrastructure" },
  { name := "playwright", package := "@microsoft/mcp-playwright", args := [], category := "browser-automation" },
  { name := "supabase", package := "@supabase/mcp-server-supabase", args := [], category := "database" },
  { name := "docker", package := "@docker/mcp-server", args := [], category := "containerization" }]

/-- What the external `subprocess.run(['npm','view',...])` call can do:
complete with a return code and captured streams, exceed the 10s deadline,
or raise some other exception. -/
inductive NpmOutcome where
  | completed (returncode : Int) (stdout : String) (stderr : String)
  | timedOut
  | raised (msg : String)
deriving DecidableEq, Repr

/-- A `'exists'` result dict of `test_package` (these are the
`working_packages` elements fed to `create_working_profile`). -/
structure WorkingPkg where
  name : String
  package : String
  args : List String
  category : String
  version : Option String := none
deriving DecidableEq, Repr

/-- A `test_package` result: the `'exists'` dicts carry the full package
data, the failure dicts only name/package/status/error. -/
inductive ProbeResult where
  | ok (w : WorkingPkg)
  | failed (name package status error : String)
deriving DecidableEq, Repr

/-- The `result['status']` field. -/
def statusOf : ProbeResult → String
  | .ok _ => "exists"
  | .failed _ _ s _ => s

/-- create-working-profile.py's `test_package`, with the subprocess call
abstracted by `outcome`. -/
def test_package (p : PkgInfo) (outcome : NpmOutcome) : ProbeResult :=
  match outcome with
  | .completed rc out err =>
    if rc = 0 ∧ pyStrip out ≠ "" then
      .ok { name := p.name, package := p.package, args := p.args,
            category := p.category, version := some (pyStrip out) }
    else
      .failed p.name p.package "not_found"
        (if err ≠ "" then pyStrip err else "Package not found")
  | .timedOut => .failed p.name p.package "timeout" "Command timed out"
  | .raised msg => .failed p.name p.package "error" msg

/-- The server entry built per working package. -/
def workingEntry (now : String) (p : WorkingPkg) : ServerEntry :=
  { command := "npx"
    args := [p.package] ++ p.args
    description := some ("Verified working " ++ p.name ++ " MCP server")
    category := some p.category
    package_name := some p.package
    version := some (p.version.getD "unknown")
    metadata := some { type := "verified-working", source := "npm-test",
                       verified := true, tested_date := some now } }

/-- create-working-profile.py's `create_working_profile`: one loop filling
the `mcpServers` dict and the category set, then the sorted categories are
stored into the metadata built with the list lengths. -/
def create_working_profile (now : String) (working_packages : List WorkingPkg) : Profile :=
  let filled : SrvMap × List String :=
    working_packages.foldl
      (fun acc p => (setVal acc.1 p.name (workingEntry now p), setAdd acc.2 p.category))
      ([], [])
  { name := "working-ecosystem"
    description := "Profile: working-ecosystem - Only verified working MCP servers that actually exist and can be installed"
    mcpServers := filled.1
    metadata :=
      { created := now
        modified := now
        totalServers := some working_packages.length
        testedPackages := some test_packages.length
        workingPackages := some working_packages.length
        categories := some (List.insertionSort (· ≤ ·) filled.2) } }

/-- The payload of a probe result when `result['status'] == 'exists'`. -/
def okPayload : ProbeResult → Option WorkingPkg
  | .ok w => some w
  | .failed _ _ _ _ => none

/-- The `working_packages` list accumulated by the main loop: the payloads
of the probe results whose status is `'exists'`. -/
def workingOf (oracle : PkgInfo → NpmOutcome) : List WorkingPkg :=
  (test_packages.map (fun p => test_package p (oracle p))).filterMap okPayload

/-- Outcome of the create-working-profile.py run: either the profile is
written, or the script exits with code 1 (writing nothing). -/
inductive RunOutcome where
  | written (p : Profile)
  | exitOne
deriving DecidableEq, Repr

/-- The tail of create-working-profile.py: `if working_packages:` build and
write the profile, `else:` report and `sys.exit(1)`. -/
def runWorking (now : String) (oracle : PkgInfo → NpmOutcome) : RunOutcome :=
  let working_packages := workingOf oracle
  if working_packages.isEmpty then .exitOne
  else .written (create_working_profile now working_packages)

/-! ## Lemmas about the dict model -/

theorem getVal_setVal_self {α : Type} (m : List (String × α)) (k : String) (v : α) :
    getVal (setVal m k v) k = some v := by
  induction m with
  | nil => simp [setVal, getVal]
  | cons kv rest ih =>
    obtain ⟨q, w⟩ := kv
    by_cases h : q = k <;> simp [setVal, getVal, h, ih]

theorem getVal_setVal_ne {α : Type} (m : List (String × α)) (k n : String) (v : α)
    (h : k ≠ n) : getVal (setVal m k v) n = getVal m n := by
  induction m with
  | nil => simp [setVal, getVal, h]
  | cons kv rest ih =>
    obtain ⟨q, w⟩ := kv
    by_cases hq : q = k
    · subst hq; simp [setVal, getVal, h]
    · simp [setVal, hq, getVal, ih]

theorem hasKey_setVal_iff {α : Type} (m : List (String × α)) (k n : String) (v : α) :
    hasKey (setVal m k v) n = true ↔ k = n ∨ hasKey m n = true := by
  by_cases h : k = n
  · subst h; simp [hasKey, getVal_setVal_self]
  · simp [hasKey, getVal_setVal_ne m k n v h, h]

theorem getVal_append {α : Type} (m1 m2 : List (String × α)) (n : String) :
    getVal (m1 ++ m2) n = ((getVal m1 n).orElse (fun _ => getVal m2 n)) := by
  induction m1 with
  | nil => simp [getVal]
  | cons kv rest ih =>
    obtain ⟨q, w⟩ := kv
    by_cases h : q = n <;> simp [getVal, h, ih]

theorem setVal_of_not_hasKey {α : Type} (m : List (String × α)) (k : String) (v : α)
    (h : hasKey m k = false) : setVal m k v = m ++ [(k, v)] := by
  induction m with
  | nil => simp [setVal]
  | cons kv rest ih =>
    obtain ⟨q, w⟩ := kv
    by_cases hq : q = k
    · subst hq; simp [hasKey, getVal] at h
    · simp [hasKey, getVal, hq] at h
      simp [setVal, hq, ih (by simp [hasKey, h])]

/-! ## Lemmas about the tokenizer -/

theorem tokensAux_eq_nil_iff (cs : List Char) (acc : List Char) :
    tokensAux cs acc = [] ↔ (acc = [] ∧ ∀ c ∈ cs, pyIsSpace c = true) := by
  induction cs generalizing acc with
  | nil =>
    by_cases h : acc.isEmpty <;>
      simp_all [tokensAux, List.isEmpty_iff, List.isEmpty_eq_false]
  | cons c cs ih =>
    by_cases hsp : pyIsSpace c
    · by_cases h : acc.isEmpty
      · have hae : acc = [] := List.isEmpty_iff.mp h
        simp [tokensAux, hsp, h, ih, hae]
      · have hae : acc ≠ [] := by simpa [List.isEmpty_eq_false] using h
        simp [tokensAux, hsp, h, hae]
    · have hred : tokensAux (c :: cs) acc = tokensAux cs (c :: acc) := by
        simp [tokensAux, hsp]
      rw [hred, ih]
      constructor
      · intro h2
        exact absurd h2.1 (List.cons_ne_nil c acc)
      · intro h2
        exact absurd (h2.2 c (List.mem_cons_self c cs)) (by simpa using hsp)

theorem parseCommand_eq_none_iff (s : String) :
    parseCommand s = none ↔ ∀ c ∈ s.data, pyIsSpace c = true := by
  unfold parseCommand pySplit
  rcases h : tokensAux s.data [] with _ | ⟨t, ts⟩
  · simpa using (tokensAux_eq_nil_iff s.data []).mp h
  · have : ¬(tokensAux s.data [] = []) := by simp [h]
    rw [tokensAux_eq_nil_iff] at this
    simp only [h, List.map_cons]
    constructor
    · intro hx; cases hx
    · intro hall; exact absurd ⟨rfl, hall⟩ this

/-! ## Lemmas about set collection and sorting -/

theorem mem_foldl_setAdd (l : List String) (s : List String) (x : String) :
    x ∈ l.foldl setAdd s ↔ x ∈ s ∨ x ∈ l := by
  induction l generalizing s with
  | nil => simp
  | cons a l ih =>
    by_cases h : a ∈ s
    · simp only [List.foldl_cons, setAdd, if_pos h, ih]
      constructor
      · rintro (hx | hx)
        · exact Or.inl hx
        · exact Or.inr (List.mem_cons_of_mem a hx)
      · rintro (hx | hx)
        · exact Or.inl hx
        · rcases List.mem_cons.mp hx with rfl | hx
          · exact Or.inl h
          · exact Or.inr hx
    · simp only [List.foldl_cons, setAdd, if_neg h, ih]
      simp [List.mem_append, List.mem_cons, or_comm, or_assoc]
      tauto

theorem nodup_foldl_setAdd (l : List String) (s : List String) (hs : s.Nodup) :
    (l.foldl setAdd s).Nodup := by
  induction l generalizing s with
  | nil => simpa
  | cons a l ih =>
    by_cases h : a ∈ s
    · simpa [setAdd, h] using ih s hs
    · have hred : (a :: l).foldl setAdd s = l.foldl setAdd (s ++ [a]) := by
        simp [setAdd, h]
      rw [hred]
      exact ih (s ++ [a]) (by simp [List.nodup_append, h, hs])

theorem foldl_setAdd_perm_dedup (l : List String) :
    List.Perm (List.foldl setAdd [] l) l.dedup := by
  rw [List.perm_ext_iff_of_nodup (nodup_foldl_setAdd l [] List.nodup_nil) (List.nodup_dedup l)]
  intro a
  rw [mem_foldl_setAdd]
  simp [List.mem_dedup]

theorem insertionSort_foldl_setAdd (l : List String) :
    List.insertionSort (· ≤ ·) (List.foldl setAdd [] l) = sortedDedup l := by
  unfold sortedDedup
  refine List.eq_of_perm_of_sorted ?_ (List.sorted_insertionSort _ _)
    (List.sorted_insertionSort _ _)
  exact (List.perm_insertionSort _ _).trans
    ((foldl_setAdd_perm_dedup l).trans (List.perm_insertionSort _ _).symm)

theorem collectCats_eq (m : SrvMap) : collectCats m = (catsOf m).foldl setAdd [] := by
  unfold collectCats catsOf
  suffices h : ∀ s, m.foldl (fun s kv => match kv.2.category with | some c => setAdd s c | none => s) s
      = (m.filterMap (fun kv => kv.2.category)).foldl setAdd s from h []
  induction m with
  | nil => intro s; rfl
  | cons kv rest ih =>
    intro s
    rcases hc : kv.2.category with _ | c <;> simp [List.filterMap_cons, hc, ih]

/-! ## Lemmas about the curated merge -/

theorem curatedAdd_getVal_of_hasKey (m : SrvMap) (name n : String)
    (h : hasKey m n = true) : getVal (curatedAdd m name).1 n = getVal m n := by
  unfold curatedAdd
  cases hk : hasKey m name with
  | true => simp [hk]
  | false =>
    have hne : name ≠ n := by
      intro he; rw [he, h] at hk; cases hk
    rcases hlm : lookupMapping name with _ | pkg
    · simp [hk, hlm]
    · simp [hk, hlm, getVal_setVal_ne m name n _ hne]

theorem curatedStep_getVal_of_hasKey (m : SrvMap) (line n : String)
    (h : hasKey m n = true) : getVal (curatedStep m line).1 n = getVal m n := by
  unfold curatedStep
  rcases he : extractName line with _ | name
  · simp
  · simpa using curatedAdd_getVal_of_hasKey m name n h

theorem curatedLoop_getVal_of_hasKey (lines : List String) :
    ∀ (m : SrvMap) (c : Nat) (n : String), hasKey m n = true →
      getVal (curatedLoop m c lines).1 n = getVal m n := by
  induction lines with
  | nil => intro m c n _; rfl
  | cons line rest ih =>
    intro m c n h
    have h1 := curatedStep_getVal_of_hasKey m line n h
    have h2 : hasKey (curatedStep m line).1 n = true := by
      unfold hasKey at h ⊢
      rw [h1]; exact h
    calc getVal (curatedLoop m c (line :: rest)).1 n
        = getVal (curatedLoop (curatedStep m line).1 (c + (curatedStep m line).2) rest).1 n := rfl
      _ = getVal (curatedStep m line).1 n := ih _ _ n h2
      _ = getVal m n := h1

/-! ## Lemmas about the unconditional insert loop of build-top-profile.py -/

theorem lastMatch_cons (p : Row → Bool) (r : Row) (rs : List Row) :
    lastMatch p (r :: rs) =
      match lastMatch p rs with
      | some x => some x
      | none => if p r then some r else none := rfl

theorem lastMatch_cons_neg (p : Row → Bool) (r : Row) (rs : List Row) (h : p r = false) :
    lastMatch p (r :: rs) = lastMatch p rs := by
  rw [lastMatch_cons]
  cases lastMatch p rs <;> simp [h]

theorem lastMatch_filter (q p : Row → Bool) (l : List Row) :
    lastMatch p (l.filter q) = lastMatch (fun r => q r && p r) l := by
  induction l with
  | nil => rfl
  | cons r rs ih =>
    by_cases hq : q r
    · rw [List.filter_cons_of_pos hq, lastMatch_cons, lastMatch_cons, ih]
      cases lastMatch (fun r => q r && p r) rs <;> simp [hq]
    · rw [List.filter_cons_of_neg (by simpa using hq), lastMatch_cons_neg _ _ _ (by simp [hq]), ih]

theorem topLoop_getVal (n : String) : ∀ (rows : List Row) (m0 m : SrvMap),
    topLoop m0 rows = .ok m →
    getVal m n =
      match lastMatch (fun r => !dockerSkip r.command && decide (r.mcp_name = n)) rows with
      | some r => (parseCommand r.command).map (fun pa => { command := pa.1, args := pa.2 })
      | none => getVal m0 n := by
  intro rows
  induction rows with
  | nil =>
    intro m0 m h
    rw [topLoop] at h
    cases h
    rfl
  | cons r rs ih =>
    intro m0 m h
    by_cases hd : dockerSkip r.command
    · have h2 : topLoop m0 rs = .ok m := by
        rw [topLoop, if_pos hd] at h; exact h
      rw [lastMatch_cons_neg _ _ _ (by simp [hd])]
      exact ih m0 m h2
    · rcases hpc : parseCommand r.command with _ | pa
      · rw [topLoop, if_neg hd, hpc] at h
        cases h
      · have h2 : topLoop (setVal m0 r.mcp_name { command := pa.1, args := pa.2 }) rs = .ok m := by
          rw [topLoop, if_neg hd, hpc] at h; exact h
        have hih := ih _ m h2
        rcases hlm : lastMatch (fun r => !dockerSkip r.command && decide (r.mcp_name = n)) rs
          with _ | x
        · rw [hlm] at hih
          have hih2 : getVal m n
              = getVal (setVal m0 r.mcp_name { command := pa.1, args := pa.2 }) n := hih
          rw [lastMatch_cons, hlm]
          by_cases hnm : r.mcp_name = n
          · have hp : (!dockerSkip r.command && decide (r.mcp_name = n)) = true := by
              simp [hd, hnm]
            rw [hp, if_pos rfl]
            show getVal m n
              = Option.map (fun pa => ({ command := pa.1, args := pa.2 } : ServerEntry))
                  (parseCommand r.command)
            rw [hpc, hih2]
            subst hnm
            rw [getVal_setVal_self]
            rfl
          · have hp : (!dockerSkip r.command && decide (r.mcp_name = n)) = false := by
              simp [hnm]
            rw [hp, if_neg (by simp)]
            show getVal m n = getVal m0 n
            rw [hih2, getVal_setVal_ne _ _ _ _ hnm]
        · rw [hlm] at hih
          rw [lastMatch_cons, hlm]
          exact hih

/-! ## Lemmas about the skip-if-present loop of build-profile.py -/

theorem addLoop_hasKey (n : String) : ∀ (rows : List Row) (m0 m : SrvMap),
    addLoop m0 rows = .ok m → hasKey m n = true →
    hasKey m0 n = true ∨ ∃ r ∈ rows, r.mcp_name = n := by
  intro rows
  induction rows with
  | nil =>
    intro m0 m h hn
    rw [addLoop] at h
    cases h
    exact Or.inl hn
  | cons r rs ih =>
    intro m0 m h hn
    rcases hpc : parseCommand r.command with _ | pa
    · rw [addLoop, hpc] at h
      cases h
    · by_cases hk : hasKey m0 r.mcp_name
      · have h2 : addLoop m0 rs = .ok m := by
          simp only [addLoop, hpc, if_pos hk] at h; exact h
        rcases ih m0 m h2 hn with hl | ⟨x, hx, hxn⟩
        · exact Or.inl hl
        · exact Or.inr ⟨x, List.mem_cons_of_mem r hx, hxn⟩
      · have h2 : addLoop (setVal m0 r.mcp_name { command := pa.1, args := pa.2 }) rs = .ok m := by
          simp only [addLoop, hpc, if_neg hk] at h; exact h
        rcases ih _ m h2 hn with hl | ⟨x, hx, hxn⟩
        · rcases (hasKey_setVal_iff m0 r.mcp_name n _).mp hl with he | hm0
          · exact Or.inr ⟨r, List.mem_cons_self r rs, he⟩
          · exact Or.inl hm0
        · exact Or.inr ⟨x, List.mem_cons_of_mem r hx, hxn⟩

theorem addLoop_all_present : ∀ (rows : List Row) (m0 : SrvMap),
    (∀ r ∈ rows, hasKey m0 r.mcp_name = true ∧ parseCommand r.command ≠ none) →
    addLoop m0 rows = .ok m0 := by
  intro rows
  induction rows with
  | nil => intro m0 _; rfl
  | cons r rs ih =>
    intro m0 h
    obtain ⟨hk, hp⟩ := h r (List.mem_cons_self r rs)
    rcases hpc : parseCommand r.command with _ | pa
    · exact absurd hpc hp
    · show (match parseCommand r.command with
        | none => (Except.error "IndexError: list index out of range" : Except String SrvMap)
        | some pa =>
          if hasKey m0 r.mcp_name then addLoop m0 rs
          else addLoop (setVal m0 r.mcp_name { command := pa.1, args := pa.2 }) rs) = .ok m0
      rw [hpc]
      simp only [if_pos hk]
      exact ih m0 (fun x hx => h x (List.mem_cons_of_mem r hx))

/-! ## Keys of the dict model stay duplicate-free -/

theorem getVal_eq_none_iff {α : Type} (m : List (String × α)) (n : String) :
    getVal m n = none ↔ n ∉ m.map Prod.fst := by
  induction m with
  | nil => simp [getVal]
  | cons kv rest ih =>
    obtain ⟨q, w⟩ := kv
    by_cases h : q = n
    · subst h; simp [getVal]
    · have hnq : ¬n = q := fun he => h he.symm
      simp [getVal, if_neg h, List.mem_cons, ih, hnq]

theorem keys_setVal_hasKey {α : Type} (m : List (String × α)) (k : String) (v : α)
    (h : hasKey m k = true) : (setVal m k v).map Prod.fst = m.map Prod.fst := by
  induction m with
  | nil => simp [hasKey, getVal] at h
  | cons kv rest ih =>
    obtain ⟨q, w⟩ := kv
    by_cases hq : q = k
    · simp [setVal, hq]
    · have h2 : hasKey rest k = true := by
        simpa [hasKey, getVal, hq] using h
      simp [setVal, hq, ih h2]

theorem nodup_keys_setVal {α : Type} (m : List (String × α)) (k : String) (v : α)
    (h : (m.map Prod.fst).Nodup) : ((setVal m k v).map Prod.fst).Nodup := by
  cases hk : hasKey m k
  · rw [setVal_of_not_hasKey m k v hk]
    have hknot : k ∉ m.map Prod.fst := by
      rw [← getVal_eq_none_iff m k]
      rcases hgv : getVal m k with _ | v
      · rfl
      · exfalso
        unfold hasKey at hk
        rw [hgv] at hk
        cases hk
    simp [List.nodup_append, h, hknot]
  · rw [keys_setVal_hasKey m k v hk]
    exact h

theorem prodLoop_nodup_keys : ∀ (rows : List Row) (m : SrvMap) (c : Nat),
    (m.map Prod.fst).Nodup → (((prodLoop m c rows).1).map Prod.fst).Nodup := by
  intro rows
  induction rows with
  | nil => intro m c h; exact h
  | cons r rs ih =>
    intro m c h
    by_cases hs : r.status = "production"
    · by_cases hd : dockerSkip r.command
      · rw [prodLoop, if_pos hs, if_pos hd]
        exact ih m c h
      · rcases hpc : parseCommand r.command with _ | pa
        · rw [prodLoop, if_pos hs, if_neg hd, hpc]
          exact h
        · rw [prodLoop, if_pos hs, if_neg hd, hpc]
          exact ih _ _ (nodup_keys_setVal m r.mcp_name _ h)
    · rw [prodLoop, if_neg hs]
      exact ih m c h

theorem curatedAdd_nodup_keys (m : SrvMap) (name : String)
    (h : (m.map Prod.fst).Nodup) : (((curatedAdd m name).1).map Prod.fst).Nodup := by
  unfold curatedAdd
  cases hk : hasKey m name
  · rcases hlm : lookupMapping name with _ | pkg
    · simpa [hk, hlm] using h
    · simpa [hk, hlm] using nodup_keys_setVal m name _ h
  · simpa [hk] using h

theorem curatedLoop_nodup_keys : ∀ (lines : List String) (m : SrvMap) (c : Nat),
    (m.map Prod.fst).Nodup → (((curatedLoop m c lines).1).map Prod.fst).Nodup := by
  intro lines
  induction lines with
  | nil => intro m c h; exact h
  | cons line rest ih =>
    intro m c h
    have hstep : (((curatedStep m line).1).map Prod.fst).Nodup := by
      unfold curatedStep
      rcases he : extractName line with _ | name
      · simpa using h
      · simpa using curatedAdd_nodup_keys m name h
    exact ih _ _ hstep

/-! ## Lemmas about create-working-profile.py -/

theorem hasKey_append {α : Type} (m1 m2 : List (String × α)) (n : String) :
    hasKey (m1 ++ m2) n = (hasKey m1 n || hasKey m2 n) := by
  unfold hasKey
  rw [getVal_append]
  cases getVal m1 n <;> simp [Option.orElse]

theorem foldl_pair_split (now : String) (l : List WorkingPkg) (m : SrvMap) (s : List String) :
    l.foldl (fun acc p => (setVal acc.1 p.name (workingEntry now p), setAdd acc.2 p.category)) (m, s)
      = (l.foldl (fun m p => setVal m p.name (workingEntry now p)) m,
         l.foldl (fun s p => setAdd s p.category) s) := by
  induction l generalizing m s with
  | nil => rfl
  | cons p l ih => simp [List.foldl_cons, ih]

theorem foldl_setVal_fresh (now : String) : ∀ (l : List WorkingPkg) (acc : SrvMap),
    (∀ p ∈ l, hasKey acc p.name = false) → ((l.map WorkingPkg.name).Nodup) →
    l.foldl (fun m p => setVal m p.name (workingEntry now p)) acc
      = acc ++ l.map (fun p => (p.name, workingEntry now p)) := by
  intro l
  induction l with
  | nil => intro acc _ _; simp
  | cons p l ih =>
    intro acc hfresh hnodup
    rw [List.map_cons, List.nodup_cons] at hnodup
    have hf := hfresh p (List.mem_cons_self p l)
    have hfresh2 : ∀ q ∈ l, hasKey (acc ++ [(p.name, workingEntry now p)]) q.name = false := by
      intro q hq
      rw [hasKey_append]
      have h1 : hasKey acc q.name = false := hfresh q (List.mem_cons_of_mem p hq)
      have h2 : hasKey [(p.name, workingEntry now p)] q.name = false := by
        have hne : p.name ≠ q.name := by
          intro he
          exact hnodup.1 (by rw [he]; exact List.mem_map_of_mem WorkingPkg.name hq)
        simp [hasKey, getVal, hne]
      rw [h1, h2]
      rfl
    rw [List.foldl_cons, setVal_of_not_hasKey acc p.name _ hf, ih _ hfresh2 hnodup.2]
    simp

theorem test_package_ok_name (p : PkgInfo) (oc : NpmOutcome) (w : WorkingPkg)
    (h : test_package p oc = .ok w) : w.name = p.name := by
  cases oc with
  | completed rc out err =>
    simp only [test_package] at h
    split_ifs at h
    cases h
    rfl
  | timedOut => simp [test_package] at h
  | raised msg => simp [test_package] at h

theorem workingOf_names_sublist (oracle : PkgInfo → NpmOutcome) :
    ((workingOf oracle).map WorkingPkg.name).Sublist (test_packages.map PkgInfo.name) := by
  unfold workingOf
  generalize test_packages = l
  induction l with
  | nil => simp
  | cons p l ih =>
    rcases htp : test_package p (oracle p) with w | ⟨a, b, c, d⟩
    · simp only [List.map_cons, List.filterMap_cons, htp, okPayload]
      rw [test_package_ok_name p (oracle p) w htp]
      exact ih.cons₂ p.name
    · simp only [List.map_cons, List.filterMap_cons, htp, okPayload]
      exact ih.cons p.name

theorem workingOf_names_nodup (oracle : PkgInfo → NpmOutcome) :
    ((workingOf oracle).map WorkingPkg.name).Nodup := by
  have hbase : (test_packages.map PkgInfo.name).Nodup := by decide
  exact List.Nodup.sublist (workingOf_names_sublist oracle) hbase

theorem catsOf_working_map (now : String) (l : List WorkingPkg) :
    catsOf (l.map (fun p => (p.name, workingEntry now p))) = l.map WorkingPkg.category := by
  induction l with
  | nil => rfl
  | cons p l ih => simp only [List.map_cons, catsOf, List.filterMap_cons, workingEntry] at ih ⊢; rw [ih]

theorem buildLive_metadata (now : String) (prodLoad : Except String (List Row))
    (curLoad : Except String (List String)) :
    (buildLive now prodLoad curLoad).metadata.totalServers
        = some (buildLive now prodLoad curLoad).mcpServers.length
    ∧ (buildLive now prodLoad curLoad).metadata.categories
        = some (List.insertionSort (· ≤ ·) (collectCats (buildLive now prodLoad curLoad).mcpServers)) :=
  ⟨rfl, rfl⟩

theorem create_working_profile_fields (now : String) (working : List WorkingPkg) :
    (create_working_profile now working).mcpServers
        = working.foldl (fun m p => setVal m p.name (workingEntry now p)) []
    ∧ (create_working_profile now working).metadata.totalServers = some working.length
    ∧ (create_working_profile now working).metadata.categories
        = some (List.insertionSort (· ≤ ·) (working.foldl (fun s p => setAdd s p.category) [])) := by
  unfold create_working_profile
  rw [foldl_pair_split]
  exact ⟨rfl, rfl, rfl⟩

theorem okPayload_test_package_none_iff (p : PkgInfo) (oc : NpmOutcome) :
    okPayload (test_package p oc) = none ↔ statusOf (test_package p oc) ≠ "exists" := by
  cases oc with
  | completed rc out err =>
    by_cases hc : rc = 0 ∧ pyStrip out ≠ ""
    · simp only [test_package, if_pos hc, okPayload, statusOf]
      simp
    · simp only [test_package, if_neg hc, okPayload, statusOf]
      exact iff_of_true (by trivial) (by decide)
  | timedOut =>
    simp only [test_package, okPayload, statusOf]
    exact iff_of_true (by trivial) (by decide)
  | raised msg =>
    simp only [test_package, okPayload, statusOf]
    exact iff_of_true (by trivial) (by decide)

theorem workingOf_eq_nil_iff (oracle : PkgInfo → NpmOutcome) :
    workingOf oracle = []
      ↔ ∀ p ∈ test_packages, statusOf (test_package p (oracle p)) ≠ "exists" := by
  unfold workingOf
  rw [List.filterMap_eq_nil_iff, List.forall_mem_map]
  constructor
  · intro h p hp
    exact (okPayload_test_package_none_iff p (oracle p)).mp (h p hp)
  · intro h p hp
    exact (okPayload_test_package_none_iff p (oracle p)).mpr (h p hp)

/-! ## Claim theorems -/

/-- C1: in build-live-ecosystem.py, a connector name inserted by the
higher-priority production merge is never overwritten by the lower-priority
curated-names merge: after both merge steps the entry under that name (its
command, args and metadata) is exactly the one the production merge stored. -/
theorem C1_production_entry_never_overwritten (now : String) (rows : List Row)
    (lines : List String) (n : String)
    (h : hasKey (prodLoop [] 0 rows).1 n = true) :
    getVal (buildLive now (.ok rows) (.ok lines)).mcpServers n
      = getVal (prodLoop [] 0 rows).1 n := by
  show getVal (curatedLoop (prodLoop [] 0 rows).1 0 lines).1 n
    = getVal (prodLoop [] 0 rows).1 n
  exact curatedLoop_getVal_of_hasKey lines _ 0 n h

/-- Witness for C1: a production row for `github-mcp` and a curated line with
the same name; the hypothesis and the preserved entry are checked concretely. -/
theorem C1_production_entry_never_overwritten_witness :
    hasKey (prodLoop [] 0
        [{ mcp_name := "github-mcp", command := "npx foo", status := "production" }]).1
      "github-mcp" = true
    ∧ getVal (buildLive "T"
          (.ok [{ mcp_name := "github-mcp", command := "npx foo", status := "production" }])
          (.ok ["github-mcp"])).mcpServers "github-mcp"
      = getVal (prodLoop [] 0
          [{ mcp_name := "github-mcp", command := "npx foo", status := "production" }]).1
          "github-mcp" :=
  ⟨by decide, C1_production_entry_never_overwritten "T" _ _ _ (by decide)⟩

/-- C4: parsing a launch command splits it on whitespace into the first token
as executable and the remaining tokens, in order, as the arguments; the
claim's example evaluates as stated, and shell quoting is not honored (a
double-quoted argument with a space is split through the quote). -/
theorem C4_parse_is_whitespace_split :
    parseCommand "npx server-foo --flag" = some ("npx", ["server-foo", "--flag"])
    ∧ parseCommand "npx \"my server\"" = some ("npx", ["\"my", "server\""]) :=
  ⟨rfl, rfl⟩

/-- C7 fails as stated: in build-profile.py the source loads are unguarded,
so a run whose CSV is missing or unreadable aborts with the load error and
never writes a profile (and the same for its profile load). -/
theorem C7_counterexample_unguarded_load :
    buildProfileRun (.ok [("existing", { command := "npx", args := ["x"] })])
        (.error "FileNotFoundError") = .error "FileNotFoundError"
    ∧ buildProfileRun (.error "FileNotFoundError") (.ok []) = .error "FileNotFoundError" :=
  ⟨rfl, rfl⟩

/-- C7 amended: in build-live-ecosystem.py (whose loads sit under
`try/except`), a failed source load is reported and contributes nothing —
the run behaves exactly as if that source were empty, still finalizing and
returning the written profile; build-profile.py, by contrast, aborts on a
failed load (see the counterexample). -/
theorem C7_amended_live_absorbs_load_failure (now e : String)
    (prodLoad : Except String (List Row)) (curLoad : Except String (List String)) :
    buildLive now (.error e) curLoad = buildLive now (.ok []) curLoad
    ∧ buildLive now prodLoad (.error e) = buildLive now prodLoad (.ok []) :=
  ⟨rfl, rfl⟩

/-- C9: re-running build-profile.py against a profile that already contains
every eligible record's name (with parseable commands) returns the profile
unchanged: every pre-existing entry and the entry count are preserved. -/
theorem C9_merge_idempotent_on_overlap (m0 : SrvMap) (rows : List Row)
    (h : ∀ r ∈ rows, r.status = "active" →
      hasKey m0 r.mcp_name = true ∧ parseCommand r.command ≠ none) :
    buildProfileMerge m0 rows = .ok m0 := by
  unfold buildProfileMerge
  apply addLoop_all_present
  intro r hr
  rw [List.mem_filter] at hr
  exact h r hr.1 (by simpa using hr.2)

/-- Witness for C9: a populated profile and a CSV whose only active row
repeats an existing name; the merge returns the profile unchanged. -/
theorem C9_merge_idempotent_on_overlap_witness :
    (∀ r ∈ [{ mcp_name := "github", command := "npx github-mcp", status := "active" }],
      Row.status r = "active" →
        hasKey [("github", ({ command := "npx", args := ["old"] } : ServerEntry))]
          (Row.mcp_name r) = true ∧ parseCommand (Row.command r) ≠ none)
    ∧ buildProfileMerge [("github", { command := "npx", args := ["old"] })]
        [{ mcp_name := "github", command := "npx github-mcp", status := "active" }]
      = .ok [("github", { command := "npx", args := ["old"] })] :=
  ⟨by decide, C9_merge_idempotent_on_overlap _ _ (by decide)⟩

/-- C10: the command parse is total exactly on non-blank commands — it
returns a value if and only if the command string has a non-whitespace
character; on an empty or whitespace-only command the `parts[0]` step has no
token to take (the `IndexError` case, modelled by `none`). -/
theorem C10_parse_total_iff_nonblank (s : String) :
    (parseCommand s).isSome = true ↔ ∃ c ∈ s.data, pyIsSpace c = false := by
  rw [← Option.ne_none_iff_isSome, Ne, parseCommand_eq_none_iff]
  push_neg
  simp [Bool.not_eq_true]

/-- C5: name-mapping resolution in build-live-ecosystem.py — an unmapped
curated name is skipped entirely (no entry, no count); a name mapped to the
sentinel identifier `github-mcp-server` is inserted with command `docker`
and args `['run', 'ghcr.io/github/github-mcp-server']`; a name mapped to any
other package identifier is inserted with command `npx` and the identifier
as sole argument. -/
theorem C5_name_mapping_resolution (m : SrvMap) (n : String) :
    (lookupMapping n = none → curatedAdd m n = (m, 0))
    ∧ (∀ pkg, lookupMapping n = some pkg → pkg ≠ "github-mcp-server" →
        hasKey m n = false →
        getVal (curatedAdd m n).1 n = some (curatedEntry n pkg "npx" [pkg]))
    ∧ (lookupMapping n = some "github-mcp-server" → hasKey m n = false →
        getVal (curatedAdd m n).1 n
          = some (curatedEntry n "github-mcp-server" "docker"
              ["run", "ghcr.io/github/github-mcp-server"])) := by
  refine ⟨?_, ?_, ?_⟩
  · intro hl
    unfold curatedAdd
    cases hk : hasKey m n <;> simp [hk, hl]
  · intro pkg hl hne hk
    by_cases hsw : (pyStartswith pkg "@" || pyStartswith pkg "github-") = true
    · simp [curatedAdd, hk, hl, hsw, hne, getVal_setVal_self]
    · simp [curatedAdd, hk, hl, hsw, getVal_setVal_self]
  · intro hl hk
    have hsw : (pyStartswith "github-mcp-server" "@"
        || pyStartswith "github-mcp-server" "github-") = true := by decide
    simp [curatedAdd, hk, hl, hsw, getVal_setVal_self]

/-- Witness for C5: the unmapped name `unknown-mcp` produces nothing, the
mapped name `filesystem-mcp` produces an `npx` entry, and `github-mcp`
(mapped to the sentinel) produces the docker-run entry. -/
theorem C5_name_mapping_resolution_witness :
    curatedAdd [] "unknown-mcp" = ([], 0)
    ∧ getVal (curatedAdd [] "filesystem-mcp").1 "filesystem-mcp"
      = some (curatedEntry "filesystem-mcp" "@modelcontextprotocol/server-filesystem"
          "npx" ["@modelcontextprotocol/server-filesystem"])
    ∧ getVal (curatedAdd [] "github-mcp").1 "github-mcp"
      = some (curatedEntry "github-mcp" "github-mcp-server" "docker"
          ["run", "ghcr.io/github/github-mcp-server"]) :=
  ⟨(C5_name_mapping_resolution [] "unknown-mcp").1 (by decide),
   (C5_name_mapping_resolution [] "filesystem-mcp").2.1
     "@modelcontextprotocol/server-filesystem" (by decide) (by decide) (by decide),
   (C5_name_mapping_resolution [] "github-mcp").2.2 (by decide) (by decide)⟩

/-- C2 fails as stated: in the build-top-profile.py merge loop (and the
identical production loop of build-live-ecosystem.py), an eligible record
whose command starts with `docker` is dropped even though its name is not
yet a key, and a later eligible record with the same name replaces the
earlier insertion instead of being skipped. -/
theorem C2_counterexample_drop_and_overwrite :
    buildTopServers
        [{ mcp_name := "github", command := "docker run ghcr.io/github/github-mcp-server",
           status := "production" }] = .ok []
    ∧ buildTopServers
        [{ mcp_name := "dup", command := "npx pkg-a", status := "production" },
         { mcp_name := "dup", command := "npx pkg-b", status := "production" }]
      = .ok [("dup", { command := "npx", args := ["pkg-b"] })] :=
  ⟨rfl, rfl⟩

/-- C2 amended: in the build-top-profile.py merge, an eligible record
(status `production`) is skipped exactly when its command starts with
`docker` or `wrangler`; every other eligible record is parsed and inserted
unconditionally, so when the run completes, the entry under a name is the
parse of the LAST eligible non-skipped record carrying that name (and a name
has an entry only if such a record exists) — later same-named records
overwrite earlier ones rather than being skipped. -/
theorem C2_amended_last_writer_characterization (rows : List Row) (m : SrvMap)
    (h : buildTopServers rows = .ok m) (n : String) :
    getVal m n =
      (lastMatch (fun r => decide (r.status = "production")
          && (!dockerSkip r.command && decide (r.mcp_name = n))) rows).bind
        (fun r => (parseCommand r.command).map
          (fun pa => { command := pa.1, args := pa.2 })) := by
  have hchar := topLoop_getVal n (rows.filter (fun r => r.status = "production")) [] m h
  rw [lastMatch_filter] at hchar
  rw [hchar]
  cases lastMatch (fun r => decide (r.status = "production")
      && (!dockerSkip r.command && decide (r.mcp_name = n))) rows <;> rfl

/-- Witness for C2's amended claim: two same-named eligible rows; the final
entry is the parse of the last one. -/
theorem C2_amended_last_writer_characterization_witness :
    buildTopServers
        [{ mcp_name := "dup", command := "npx pkg-a", status := "production" },
         { mcp_name := "dup", command := "npx pkg-b", status := "production" }]
      = .ok [("dup", { command := "npx", args := ["pkg-b"] })]
    ∧ getVal [("dup", ({ command := "npx", args := ["pkg-b"] } : ServerEntry))] "dup" =
      (lastMatch (fun r => decide (r.status = "production")
          && (!dockerSkip r.command && decide (r.mcp_name = "dup")))
          [{ mcp_name := "dup", command := "npx pkg-a", status := "production" },
           { mcp_name := "dup", command := "npx pkg-b", status := "production" }]).bind
        (fun r => (parseCommand r.command).map
          (fun pa => { command := pa.1, args := pa.2 })) :=
  ⟨rfl,
   C2_amended_last_writer_characterization
     [{ mcp_name := "dup", command := "npx pkg-a", status := "production" },
      { mcp_name := "dup", command := "npx pkg-b", status := "production" }]
     [("dup", { command := "npx", args := ["pkg-b"] })] rfl "dup"⟩

/-- C3 fails as stated: in build-profile.py the resulting profile keeps every
entry of the pre-existing profile, so a CSV record with the ineligible status
`retired` can still have its name appear as a key of the result (supplied by
the initial profile, not by the record). -/
theorem C3_counterexample_preexisting_key :
    buildProfileMerge [("legacy", { command := "npx", args := ["old"] })]
        [{ mcp_name := "legacy", command := "npx new", status := "retired" }]
      = .ok [("legacy", { command := "npx", args := ["old"] })]
    ∧ ("retired" = "active" → False)
    ∧ hasKey [("legacy", ({ command := "npx", args := ["old"] } : ServerEntry))] "legacy"
      = true :=
  ⟨rfl, by decide, by decide⟩

/-- C3 amended: an ineligible record is itself never merged — every key of
the resulting profile is either a key of the initial profile or the name of
some record whose status matches the filter. -/
theorem C3_amended_keys_from_eligible_only (m0 : SrvMap) (rows : List Row) (m : SrvMap)
    (h : buildProfileMerge m0 rows = .ok m) (n : String) (hn : hasKey m n = true) :
    hasKey m0 n = true ∨ ∃ r ∈ rows, r.status = "active" ∧ r.mcp_name = n := by
  rcases addLoop_hasKey n (rows.filter (fun r => r.status = "active")) m0 m h hn
    with hl | ⟨r, hr, hn2⟩
  · exact Or.inl hl
  · rw [List.mem_filter] at hr
    exact Or.inr ⟨r, hr.1, by simpa using hr.2, hn2⟩

/-- Witness for C3's amended claim: a fresh profile and one active row; the
only key of the result is accounted for by that eligible record. -/
theorem C3_amended_keys_from_eligible_only_witness :
    buildProfileMerge []
        [{ mcp_name := "github", command := "npx github-mcp", status := "active" }]
      = .ok [("github", { command := "npx", args := ["github-mcp"] })]
    ∧ (hasKey ([] : SrvMap) "github" = true
        ∨ ∃ r ∈ [{ mcp_name := "github", command := "npx github-mcp", status := "active" }],
            Row.status r = "active" ∧ Row.mcp_name r = "github") :=
  ⟨rfl,
   C3_amended_keys_from_eligible_only []
     [{ mcp_name := "github", command := "npx github-mcp", status := "active" }]
     [("github", { command := "npx", args := ["github-mcp"] })] rfl "github"
     (by decide)⟩

theorem foldl_setAdd_category (l : List WorkingPkg) (s : List String) :
    l.foldl (fun s p => setAdd s p.category) s
      = (l.map WorkingPkg.category).foldl setAdd s := by
  induction l generalizing s with
  | nil => rfl
  | cons p l ih => simp [List.foldl_cons, ih]

theorem buildLive_mcpServers_nodup (now : String) (prodLoad : Except String (List Row))
    (curLoad : Except String (List String)) :
    ((buildLive now prodLoad curLoad).mcpServers.map Prod.fst).Nodup := by
  unfold buildLive
  cases curLoad with
  | error e =>
    cases prodLoad with
    | error e2 => simp
    | ok rows => exact prodLoop_nodup_keys rows [] 0 (by simp)
  | ok lines =>
    cases prodLoad with
    | error e2 => exact curatedLoop_nodup_keys lines [] 0 (by simp)
    | ok rows => exact curatedLoop_nodup_keys lines _ 0 (prodLoop_nodup_keys rows [] 0 (by simp))

/-- C6: after the finalize-metadata step, in both builders that stamp these
fields (build-live-ecosystem.py and create-working-profile.py as run on its
probe results), `totalServers` equals the number of keys of the `mcpServers`
mapping (whose keys are duplicate-free) and `categories` is the sorted
de-duplicated list of the `category` values present across the entries. -/
theorem C6_finalize_metadata_totals_and_categories :
    (∀ (now : String) (prodLoad : Except String (List Row))
        (curLoad : Except String (List String)),
      ((buildLive now prodLoad curLoad).mcpServers.map Prod.fst).Nodup
      ∧ (buildLive now prodLoad curLoad).metadata.totalServers
          = some ((buildLive now prodLoad curLoad).mcpServers.map Prod.fst).length
      ∧ (buildLive now prodLoad curLoad).metadata.categories
          = some (sortedDedup (catsOf (buildLive now prodLoad curLoad).mcpServers)))
    ∧ (∀ (now : String) (oracle : PkgInfo → NpmOutcome),
      ((create_working_profile now (workingOf oracle)).mcpServers.map Prod.fst).Nodup
      ∧ (create_working_profile now (workingOf oracle)).metadata.totalServers
          = some ((create_working_profile now (workingOf oracle)).mcpServers.map
              Prod.fst).length
      ∧ (create_working_profile now (workingOf oracle)).metadata.categories
          = some (sortedDedup
              (catsOf (create_working_profile now (workingOf oracle)).mcpServers))) := by
  constructor
  · intro now prodLoad curLoad
    refine ⟨buildLive_mcpServers_nodup now prodLoad curLoad, ?_, ?_⟩
    · rw [(buildLive_metadata now prodLoad curLoad).1, List.length_map]
    · rw [(buildLive_metadata now prodLoad curLoad).2, collectCats_eq,
        insertionSort_foldl_setAdd]
  · intro now oracle
    have hnd := workingOf_names_nodup oracle
    have hsrv : (create_working_profile now (workingOf oracle)).mcpServers
        = (workingOf oracle).map (fun p => (p.name, workingEntry now p)) := by
      rw [(create_working_profile_fields now (workingOf oracle)).1,
          foldl_setVal_fresh now (workingOf oracle) [] (fun p _ => rfl) hnd]
      simp
    have hkeys : ((create_working_profile now (workingOf oracle)).mcpServers.map Prod.fst)
        = (workingOf oracle).map WorkingPkg.name := by
      rw [hsrv, List.map_map]
      rfl
    refine ⟨?_, ?_, ?_⟩
    · rw [hkeys]; exact hnd
    · rw [(create_working_profile_fields now (workingOf oracle)).2.1, hkeys,
        List.length_map]
    · rw [(create_working_profile_fields now (workingOf oracle)).2.2, hsrv,
        catsOf_working_map, foldl_setAdd_category, insertionSort_foldl_setAdd]

/-- C8: the create-working-profile.py run exits with code 1 (writing no
profile) exactly when no package probe reports status `exists`; whenever at
least one probe succeeds, all other failures are absorbed and the profile is
written. -/
theorem C8_exit_iff_zero_working (now : String) (oracle : PkgInfo → NpmOutcome) :
    (runWorking now oracle = .exitOne
      ↔ ∀ p ∈ test_packages, statusOf (test_package p (oracle p)) ≠ "exists")
    ∧ ((∃ p ∈ test_packages, statusOf (test_package p (oracle p)) = "exists")
        → ∃ prof, runWorking now oracle = .written prof) := by
  constructor
  · constructor
    · intro h
      rcases he : workingOf oracle with _ | ⟨w, ws⟩
      · exact (workingOf_eq_nil_iff oracle).mp he
      · exfalso
        unfold runWorking at h
        rw [he] at h
        simp at h
    · intro hall
      unfold runWorking
      rw [(workingOf_eq_nil_iff oracle).mpr hall]
      rfl
  · rintro ⟨p, hp, hs⟩
    rcases he : workingOf oracle with _ | ⟨w, ws⟩
    · exact absurd hs ((workingOf_eq_nil_iff oracle).mp he p hp)
    · refine ⟨create_working_profile now (w :: ws), ?_⟩
      unfold runWorking
      rw [he]
      rfl

/-- Witness for C8: an all-timeout oracle exits with code 1, and an oracle
whose npm probe always reports a version gets the profile written. -/
theorem C8_exit_iff_zero_working_witness :
    runWorking "T" (fun _ => NpmOutcome.timedOut) = .exitOne
    ∧ ∃ prof, runWorking "T" (fun _ => NpmOutcome.completed 0 "1.0.0" "") = .written prof :=
  ⟨(C8_exit_iff_zero_working "T" (fun _ => NpmOutcome.timedOut)).1.mpr (by decide),
   (C8_exit_iff_zero_working "T" (fun _ => NpmOutcome.completed 0 "1.0.0" "")).2
     ⟨{ name := "filesystem", package := "@modelcontextprotocol/server-filesystem",
        args := ["/tmp"], category := "file-operations" }, by decide, by decide⟩⟩
